import Mathlib

/-!
Verification development for the EquityPath AI prediction engine.

The definitions below are a shallow embedding of the client-side
financial engine:

* `src/lib/real-financial-api.ts` — technical indicators
  (`calculateRSI`, `calculateEMA`, `calculateSMA`, `calculateMACD`,
  `calculateBollingerBands`, `calculateVolatility`), the heuristic
  prediction combinator `generateAdvancedPrediction`, and the two
  synthetic market-data generators (`getRealtimeMarketData`,
  `generateFallbackData`).
* `src/lib/financial-api.ts` — the mock engine's `generateAIPrediction`.
* `src/lib/ai-analysis.ts` — the remote-then-local fallback wrappers
  `getAIMarketAnalysis` / `getAIPricePredictions`.

Modelling conventions:

* JavaScript numbers are idealised as exact rationals `ℚ`.
* The transcendental primitives `Math.sqrt`, `Math.log`, `Math.sin`
  are environment parameters collected in `JSMath`; theorems assume
  only the properties of the real functions that they need
  (e.g. `sqrt` of a non-negative number is non-negative).
* Each `Math.random()` draw is an explicit input (a single rational,
  or a stream indexed by loop iteration and call site).
* `Number(x.toFixed(2))` is modelled by `round2`, `Math.round` by
  Mathlib's `round` (both round ties toward +∞, as the JS operations
  do), `Math.floor` by `Int.floor`.
* JS division by zero produces `NaN`/`±Infinity`; every place where
  the source can divide by zero is modelled explicitly with the JS
  comparison semantics (all comparisons with `NaN` are false).
* Free-text template fields (`explanation`, `timeframe`, the prose
  strings of the AI-analysis fallbacks) and the dead
  `PolynomialRegression` feature vector of `generateAdvancedPrediction`
  (computed but never used in any output) are omitted from the
  embedded records; every numeric/enumerated output field is kept.
-/

set_option maxRecDepth 100000

deriving instance DecidableEq for Except

/-- Environment of transcendental JS `Math` primitives. -/
structure JSMath where
  sqrt : ℚ → ℚ
  log : ℚ → ℚ
  sin : ℚ → ℚ

/-- `Number(x.toFixed(2))`: round to 2 decimal places, ties toward +∞. -/
def round2 (q : ℚ) : ℚ := (round (q * 100) : ℤ) / 100

/-- `l.slice(-n)` for `n ≥ 1`: the trailing `n` elements (all of `l` when
`l` is shorter than `n`). -/
def lastN {α : Type} (n : ℕ) (l : List α) : List α := l.drop (l.length - n)

/-- Arithmetic mean of a list (`0` on the empty list, where the source
library would reject the input). -/
def listMean (l : List ℚ) : ℚ := l.sum / l.length

/-- Population variance, as used by `simple-statistics`' `variance`. -/
def popVariance (l : List ℚ) : ℚ :=
  ((l.map (fun x => (x - listMean l) ^ 2)).sum) / l.length

/-- `simple-statistics`' `standardDeviation`: square root of the
population variance. -/
def ssStdDev (m : JSMath) (l : List ℚ) : ℚ := m.sqrt (popVariance l)

/-- `Math.min(...l)` for nonempty `l` (the empty case, `Infinity` in JS,
is mapped to `0` and never used by the theorems). -/
def listMin : List ℚ → ℚ
  | [] => 0
  | x :: xs => xs.foldl min x

/-- `Math.max(...l)` for nonempty `l` (empty case as in `listMin`). -/
def listMax : List ℚ → ℚ
  | [] => 0
  | x :: xs => xs.foldl max x

/-! ## Technical indicators (`real-financial-api.ts` lines 61–135) -/

/-- `prices.slice(1).map((price, i) => price - prices[i])`. -/
def rsiChanges (prices : List ℚ) : List ℚ :=
  List.zipWith (fun a b => b - a) prices prices.tail

/-- `changes.map(change => change > 0 ? change : 0)`. -/
def rsiGains (prices : List ℚ) : List ℚ :=
  (rsiChanges prices).map (fun c => if 0 < c then c else 0)

/-- `changes.map(change => change < 0 ? Math.abs(change) : 0)`. -/
def rsiLosses (prices : List ℚ) : List ℚ :=
  (rsiChanges prices).map (fun c => if c < 0 then -c else 0)

/-- Wilder smoothing loop:
`avg = ((avg * (period - 1)) + x) / period` over the remaining values. -/
def wilderSmooth (period : ℕ) (init : ℚ) (rest : List ℚ) : ℚ :=
  rest.foldl (fun avg x => (avg * ((period : ℚ) - 1) + x) / (period : ℚ)) init

/-- The smoothed average gain of `calculateRSI`. -/
def smoothedAvgGain (prices : List ℚ) (period : ℕ) : ℚ :=
  wilderSmooth period (((rsiGains prices).take period).sum / (period : ℚ))
    ((rsiGains prices).drop period)

/-- The smoothed average loss of `calculateRSI`. -/
def smoothedAvgLoss (prices : List ℚ) (period : ℕ) : ℚ :=
  wilderSmooth period (((rsiLosses prices).take period).sum / (period : ℚ))
    ((rsiLosses prices).drop period)

/-- `calculateRSI(prices, period = 14)`.  `avgLoss || 1` is the JS
falsy-guard: a zero average loss is replaced by the divisor `1`. -/
def calculateRSI (prices : List ℚ) (period : ℕ) : ℚ :=
  if prices.length < period + 1 then 50
  else
    let avgLoss := smoothedAvgLoss prices period
    let rs := smoothedAvgGain prices period / (if avgLoss = 0 then 1 else avgLoss)
    100 - 100 / (1 + rs)

/-- `calculateEMA(prices, period)`: seeded with the first price,
multiplier `2/(period+1)`; empty input gives `0`. -/
def calculateEMA (prices : List ℚ) (period : ℕ) : ℚ :=
  match prices with
  | [] => 0
  | p :: rest =>
    rest.foldl
      (fun ema x =>
        x * (2 / ((period : ℚ) + 1)) + ema * (1 - 2 / ((period : ℚ) + 1))) p

/-- `calculateSMA(prices, period)`: mean of the trailing `period` prices,
or of the whole list when it is shorter than `period`. -/
def calculateSMA (prices : List ℚ) (period : ℕ) : ℚ :=
  if prices.length < period then prices.sum / (prices.length : ℚ)
  else (lastN period prices).sum / (period : ℚ)

/-- The `{macd, signal, histogram}` triple. -/
structure Macd where
  macd : ℚ
  signal : ℚ
  histogram : ℚ
deriving DecidableEq

/-- `calculateMACD(prices)`: `EMA12 − EMA26`, with the signal line the
9-period EMA of the MACD series recomputed over `prices.slice(0, 26+i)`. -/
def calculateMACD (prices : List ℚ) : Macd :=
  let line := calculateEMA prices 12 - calculateEMA prices 26
  let macdValues :=
    (prices.drop 25).enum.map
      (fun pe =>
        calculateEMA (prices.take (26 + pe.1)) 12 -
          calculateEMA (prices.take (26 + pe.1)) 26)
  let signal := calculateEMA macdValues 9
  { macd := line, signal := signal, histogram := line - signal }

/-- The `{upper, middle, lower}` Bollinger triple. -/
structure Bands where
  upper : ℚ
  middle : ℚ
  lower : ℚ
deriving DecidableEq

/-- `calculateBollingerBands(prices, period = 20)`.  Note that the sum of
squared deviations is divided by `period` even when fewer than `period`
prices are available. -/
def calculateBollingerBands (m : JSMath) (prices : List ℚ) (period : ℕ) : Bands :=
  let sma := calculateSMA prices period
  let variance := ((lastN period prices).map (fun p => (p - sma) ^ 2)).sum / (period : ℚ)
  let stdDev := m.sqrt variance
  { upper := sma + stdDev * 2, middle := sma, lower := sma - stdDev * 2 }

/-- The log returns `Math.log(price / prices[i])` of consecutive prices. -/
def logReturns (m : JSMath) (prices : List ℚ) : List ℚ :=
  List.zipWith (fun a b => m.log (b / a)) prices prices.tail

/-- `calculateVolatility(prices)`: annualized volatility, i.e. the
standard deviation of the log returns `× √252 × 100`; `0` for fewer than
2 prices. -/
def calculateVolatility (m : JSMath) (prices : List ℚ) : ℚ :=
  if prices.length < 2 then 0
  else ssStdDev m (logReturns m prices) * m.sqrt 252 * 100

/-! ## Concrete `JSMath` instance used for closed evaluations -/

/-- A computable square root on `ℚ`, exact on rationals whose reduced
numerator and denominator are perfect squares (the only points at which
closed evaluations use it). -/
def ratSqrt (q : ℚ) : ℚ := ((Nat.sqrt q.num.toNat : ℚ)) / ((Nat.sqrt q.den : ℚ))

/-- Concrete stand-in for the JS `Math` environment, used to evaluate the
engine on closed inputs: `ratSqrt` for `sqrt`, `q ↦ q − 1` for `log`
(exact at `1`, the only point where closed evaluations need `log`), and
the zero function for `sin`. -/
def stubMath : JSMath := { sqrt := ratSqrt, log := fun q => q - 1, sin := fun _ => 0 }

/-! ## The prediction combinator `generateAdvancedPrediction`
(`real-financial-api.ts` lines 138–268)

Each `const x = ...` binding of the source becomes one definition `advX`.
The single `Math.random()` draw (in the volatility adjustment) is the
parameter `r`. -/

/-- One OHLCV observation (`RealPriceDataPoint`).  The calendar `date`
string is modelled as an integer day index. -/
structure RealPricePoint where
  date : ℤ
  price : ℚ
  openPrice : ℚ
  high : ℚ
  low : ℚ
  volume : ℤ
deriving DecidableEq

/-- `historicalData.map(d => d.price)`. -/
def advPrices (data : List RealPricePoint) : List ℚ := data.map (·.price)

/-- `historicalData.map(d => d.volume)`. -/
def advVolumes (data : List RealPricePoint) : List ℤ := data.map (·.volume)

/-- `historicalData.map(d => d.high)`. -/
def advHighs (data : List RealPricePoint) : List ℚ := data.map (·.high)

/-- `historicalData.map(d => d.low)`. -/
def advLows (data : List RealPricePoint) : List ℚ := data.map (·.low)

/-- `prices[prices.length - 1]` (the empty case, `undefined` in JS, is
mapped to `0`; all theorems assume a nonempty series). -/
def advCurrentPrice (data : List RealPricePoint) : ℚ := (advPrices data).getLastD 0

/-- `calculateRSI(prices)` with the default period 14. -/
def advRsi (data : List RealPricePoint) : ℚ := calculateRSI (advPrices data) 14

/-- `calculateMACD(prices)`. -/
def advMacd (data : List RealPricePoint) : Macd := calculateMACD (advPrices data)

/-- `calculateSMA(prices, 20)`. -/
def advSma20 (data : List RealPricePoint) : ℚ := calculateSMA (advPrices data) 20

/-- `calculateSMA(prices, 50)`. -/
def advSma50 (data : List RealPricePoint) : ℚ := calculateSMA (advPrices data) 50

/-- `calculateEMA(prices, 12)`. -/
def advEma12 (data : List RealPricePoint) : ℚ := calculateEMA (advPrices data) 12

/-- `calculateEMA(prices, 26)`. -/
def advEma26 (data : List RealPricePoint) : ℚ := calculateEMA (advPrices data) 26

/-- `calculateBollingerBands(prices)` with the default period 20. -/
def advBands (m : JSMath) (data : List RealPricePoint) : Bands :=
  calculateBollingerBands m (advPrices data) 20

/-- `calculateVolatility(prices)`. -/
def advVolatility (m : JSMath) (data : List RealPricePoint) : ℚ :=
  calculateVolatility m (advPrices data)

/-- `volumes.slice(-20).reduce((a, b) => a + b, 0) / 20`. -/
def advVolumeProfile (data : List RealPricePoint) : ℚ :=
  ((lastN 20 (advVolumes data)).map (fun v => (v : ℚ))).sum / 20

/-- RSI influence on the base multiplier. -/
def advRsiFactor (data : List RealPricePoint) : ℚ :=
  if 70 < advRsi data then 0.98 else if advRsi data < 30 then 1.02 else 1

/-- MACD influence on the base multiplier. -/
def advMacdFactor (data : List RealPricePoint) : ℚ :=
  if (advMacd data).signal < (advMacd data).macd then 1.005 else 0.995

/-- Moving-average alignment influence on the base multiplier. -/
def advMaFactor (data : List RealPricePoint) : ℚ :=
  if advSma20 data < advCurrentPrice data ∧ advSma50 data < advSma20 data then 1.01
  else if advCurrentPrice data < advSma20 data ∧ advSma20 data < advSma50 data then 0.99
  else 1

/-- Bollinger-position influence on the base multiplier.  When
`upper − lower = 0`, JS computes `bbPosition` as `NaN` (numerator `0`) or
`±Infinity`; the comparisons then behave as spelled out below. -/
def advBbFactor (m : JSMath) (data : List RealPricePoint) : ℚ :=
  let b := advBands m data
  let n := advCurrentPrice data - b.lower
  let d := b.upper - b.lower
  if d = 0 then (if 0 < n then 0.995 else if n < 0 then 1.005 else 1)
  else if 0.8 < n / d then 0.995
  else if n / d < 0.2 then 1.005
  else 1

/-- The sequential `baseMultiplier *= ...` adjustments, combined as one
product (exact in `ℚ`, where multiplication is commutative and
associative). -/
def advBaseMultiplier (m : JSMath) (data : List RealPricePoint) : ℚ :=
  advRsiFactor data * advMacdFactor data * advMaFactor data * advBbFactor m data

/-- `Math.pow(0.95, timeframeDays)`. -/
def advTimeDecay (days : ℕ) : ℚ := (0.95 : ℚ) ^ days

/-- `1 + (volatility / 100) * Math.random() * 0.1`. -/
def advVolAdjustment (m : JSMath) (r : ℚ) (data : List RealPricePoint) : ℚ :=
  1 + (advVolatility m data / 100) * r * 0.1

/-- `currentPrice * baseMultiplier * volatilityAdjustment` (before the
2-decimal rounding of the output record). -/
def advPredictedPrice (m : JSMath) (r : ℚ) (data : List RealPricePoint) : ℚ :=
  advCurrentPrice data * advBaseMultiplier m data * advVolAdjustment m r data

/-- `((predictedPrice - currentPrice) / currentPrice) * 100` (before the
2-decimal rounding of the output record). -/
def advChangePercent (m : JSMath) (r : ℚ) (data : List RealPricePoint) : ℚ :=
  (advPredictedPrice m r data - advCurrentPrice data) / advCurrentPrice data * 100

/-- `Math.abs(rsi - 50) / 50`. -/
def advTrendConsistency (data : List RealPricePoint) : ℚ := |advRsi data - 50| / 50

/-- `Math.min(volumeProfile / (volumes[volumes.length - 1] || 1), 2)`. -/
def advVolumeConsistency (data : List RealPricePoint) : ℚ :=
  let lastVol : ℚ := ((advVolumes data).getLastD 0 : ℤ)
  min (advVolumeProfile data / (if lastVol = 0 then 1 else lastVol)) 2

/-- `75 + (trendConsistency * 15) + (volumeConsistency * 10)`. -/
def advBaseConfidence (data : List RealPricePoint) : ℚ :=
  75 + advTrendConsistency data * 15 + advVolumeConsistency data * 10

/-- `Math.min(95, Math.max(55, baseConfidence * timeDecay))` (before the
`Math.round` of the output record). -/
def advConfidenceRaw (data : List RealPricePoint) (days : ℕ) : ℚ :=
  min 95 (max 55 (advBaseConfidence data * advTimeDecay days))

/-- The `bullish | bearish | neutral` trend label. -/
inductive Trend where
  | bullish
  | bearish
  | neutral
deriving DecidableEq

/-- The trend classification of `generateAdvancedPrediction`,
threshold `0.5` on the un-rounded change percent. -/
def advTrend (m : JSMath) (r : ℚ) (data : List RealPricePoint) : Trend :=
  if |advChangePercent m r data| < 0.5 then Trend.neutral
  else if 0 < advChangePercent m r data then Trend.bullish
  else Trend.bearish

/-- `Math.min(...lows.slice(-20)) * 0.98`. -/
def advSupportLevel (data : List RealPricePoint) : ℚ :=
  listMin (lastN 20 (advLows data)) * 0.98

/-- `Math.max(...highs.slice(-20)) * 1.02`. -/
def advResistanceLevel (data : List RealPricePoint) : ℚ :=
  listMax (lastN 20 (advHighs data)) * 1.02

/-- The `low | medium | high` risk label. -/
inductive RiskLevel where
  | low
  | medium
  | high
deriving DecidableEq

/-- Risk tiering on the annualized volatility. -/
def advRiskLevel (m : JSMath) (data : List RealPricePoint) : RiskLevel :=
  if advVolatility m data < 20 then RiskLevel.low
  else if advVolatility m data < 40 then RiskLevel.medium
  else RiskLevel.high

/-- `Math.min(100, Math.max(0, 70 + (confidence - 70) * 0.5 +
(100 - volatility) * 0.3))` (before the `Math.round` of the record). -/
def advMlModelScore (m : JSMath) (data : List RealPricePoint) (days : ℕ) : ℚ :=
  min 100 (max 0 (70 + (advConfidenceRaw data days - 70) * 0.5 +
    (100 - advVolatility m data) * 0.3))

/-- The `TechnicalIndicators` snapshot stored in the prediction. -/
structure TechnicalIndicators where
  rsi : ℚ
  macd : Macd
  sma20 : ℚ
  sma50 : ℚ
  ema12 : ℚ
  ema26 : ℚ
  bollingerBands : Bands
  volatility : ℚ
deriving DecidableEq

/-- The conservative/moderate/aggressive price targets. -/
structure PriceTargets where
  conservative : ℚ
  moderate : ℚ
  aggressive : ℚ
deriving DecidableEq

/-- The output record of `generateAdvancedPrediction` (text-valued
`timeframe`/`explanation` fields omitted, see the module docstring). -/
structure AdvancedPrediction where
  symbol : String
  predictedPrice : ℚ
  confidence : ℤ
  changePercent : ℚ
  trend : Trend
  technicalFactors : TechnicalIndicators
  mlModelScore : ℤ
  riskLevel : RiskLevel
  supportLevel : ℚ
  resistanceLevel : ℚ
  priceTargets : PriceTargets
deriving DecidableEq

/-- `generateAdvancedPrediction(historicalData, timeframeDays)`:
assembles the output record from the bindings above, applying the
`Number(x.toFixed(2))` / `Math.round` conversions of the source. -/
def generateAdvancedPrediction (m : JSMath) (r : ℚ) (data : List RealPricePoint)
    (timeframeDays : ℕ) : AdvancedPrediction :=
  { symbol := ""
    predictedPrice := round2 (advPredictedPrice m r data)
    confidence := round (advConfidenceRaw data timeframeDays)
    changePercent := round2 (advChangePercent m r data)
    trend := advTrend m r data
    technicalFactors :=
      { rsi := round2 (advRsi data)
        macd := advMacd data
        sma20 := round2 (advSma20 data)
        sma50 := round2 (advSma50 data)
        ema12 := round2 (advEma12 data)
        ema26 := round2 (advEma26 data)
        bollingerBands := advBands m data
        volatility := round2 (advVolatility m data) }
    mlModelScore := round (advMlModelScore m data timeframeDays)
    riskLevel := advRiskLevel m data
    supportLevel := round2 (advSupportLevel data)
    resistanceLevel := round2 (advResistanceLevel data)
    priceTargets :=
      { conservative := round2 (advCurrentPrice data +
          advChangePercent m r data * 0.3 / 100 * advCurrentPrice data)
        moderate := round2 (advCurrentPrice data +
          advChangePercent m r data * 0.6 / 100 * advCurrentPrice data)
        aggressive := round2 (advPredictedPrice m r data) } }

/-- `RealFinancialAPI.generatePrediction`: the promise always resolves
(there is no length guard and no reject path), modelled as an
always-`ok` `Except`. -/
def realGeneratePrediction (sym : String) (m : JSMath) (r : ℚ)
    (data : List RealPricePoint) (timeframeDays : ℕ) :
    Except String AdvancedPrediction :=
  Except.ok { generateAdvancedPrediction m r data timeframeDays with symbol := sym }

/-- A 30-point series with flat price 100 and constant volume, the
end-to-end scenario input of the spec. -/
def flat30 : List RealPricePoint :=
  List.replicate 30
    { date := 0, price := 100, openPrice := 100, high := 100, low := 100,
      volume := 1000000 }

/-! ## The mock engine `generateAIPrediction`
(`financial-api.ts` lines 142–228)

Only the `price` field and the length of the input points are read, so
the input is modelled as the price list directly.  The single
`Math.random()` draw that reaches a numeric output (the prediction
noise) is the parameter `r`; the draw selecting an explanation template
affects only the omitted text field. -/

/-- `prices[prices.length - 1]`. -/
def mockCurrentPrice (prices : List ℚ) : ℚ := prices.getLastD 0

/-- `prices.slice(-5).reduce((a, b) => a + b, 0) / 5`. -/
def mockSma5 (prices : List ℚ) : ℚ := (lastN 5 prices).sum / 5

/-- `prices.slice(-10).reduce((a, b) => a + b, 0) / 10` — note the
divisor is the literal `10` even when fewer than 10 prices exist. -/
def mockSma10 (prices : List ℚ) : ℚ := (lastN 10 prices).sum / 10

/-- `(currentPrice - prices[length-2]) / prices[length-2]` (computed by
the source but unused by any output). -/
def mockPriceChange (prices : List ℚ) : ℚ :=
  (mockCurrentPrice prices - prices.getD (prices.length - 2) 0) /
    prices.getD (prices.length - 2) 0

/-- The momentum reduce over `prices.slice(-3)`: the `i = 0` step
discards the accumulator and returns `0`, so the result is
`(p[n-1] - p[n-3]) / 2` for series of length `≥ 3`. -/
def mockMomentum (prices : List ℚ) : ℚ :=
  ((lastN 3 prices).enum.foldl
    (fun sum pe =>
      if pe.1 = 0 then 0
      else sum + (pe.2 - prices.getD (prices.length - 3 + pe.1 - 1) 0)) 0) / 2

/-- `Math.sqrt` of the mean (divisor literal `10`) squared deviation of
the trailing 10 prices. -/
def mockVolatility (m : JSMath) (prices : List ℚ) : ℚ :=
  m.sqrt (((lastN 10 prices).map (fun p => (p - mockSma10 prices) ^ 2)).sum / 10)

/-- `sma5 > sma10 ? 1 : -1`. -/
def mockTrendDirection (prices : List ℚ) : ℚ :=
  if mockSma10 prices < mockSma5 prices then 1 else -1

/-- `Math.abs(sma5 - sma10) / currentPrice`. -/
def mockTrendStrength (prices : List ℚ) : ℚ :=
  |mockSma5 prices - mockSma10 prices| / mockCurrentPrice prices

/-- `currentPrice + trendDirection * trendStrength * currentPrice * 0.1
+ momentum * 0.5`. -/
def mockBasePrediction (prices : List ℚ) : ℚ :=
  mockCurrentPrice prices +
    mockTrendDirection prices * mockTrendStrength prices * mockCurrentPrice prices * 0.1 +
    mockMomentum prices * 0.5

/-- `Math.pow(0.95, timeframeDays)`. -/
def mockTimeDecay (days : ℕ) : ℚ := (0.95 : ℚ) ^ days

/-- `Math.max(0.1, 1 - (volatility / currentPrice * 10))`. -/
def mockVolAdjustment (m : JSMath) (prices : List ℚ) : ℚ :=
  max 0.1 (1 - mockVolatility m prices / mockCurrentPrice prices * 10)

/-- `Math.min(95, Math.max(55, 85 * timeDecay * volatilityAdjustment))`
(before the `Math.round` of the record). -/
def mockFinalConfidence (m : JSMath) (prices : List ℚ) (days : ℕ) : ℚ :=
  min 95 (max 55 (85 * mockTimeDecay days * mockVolAdjustment m prices))

/-- `(Math.random() - 0.5) * volatility * timeframeDays * 0.1`. -/
def mockNoise (m : JSMath) (r : ℚ) (prices : List ℚ) (days : ℕ) : ℚ :=
  (r - 0.5) * mockVolatility m prices * (days : ℚ) * 0.1

/-- `Math.max(0.01, basePrediction + predictionNoise)` (before the
2-decimal rounding of the record). -/
def mockPredictedPrice (m : JSMath) (r : ℚ) (prices : List ℚ) (days : ℕ) : ℚ :=
  max 0.01 (mockBasePrediction prices + mockNoise m r prices days)

/-- `((predictedPrice - currentPrice) / currentPrice) * 100` (before the
2-decimal rounding of the record). -/
def mockChangePercent (m : JSMath) (r : ℚ) (prices : List ℚ) (days : ℕ) : ℚ :=
  (mockPredictedPrice m r prices days - mockCurrentPrice prices) /
    mockCurrentPrice prices * 100

/-- The trend classification of the mock engine — note the threshold is
`1`, not `0.5`. -/
def mockTrend (m : JSMath) (r : ℚ) (prices : List ℚ) (days : ℕ) : Trend :=
  if |mockChangePercent m r prices days| < 1 then Trend.neutral
  else if 0 < mockChangePercent m r prices days then Trend.bullish
  else Trend.bearish

/-- The `technicalFactors` snapshot of the mock prediction. -/
structure MockTechFactors where
  sma5 : ℚ
  sma10 : ℚ
  momentum : ℚ
  volatility : ℚ
deriving DecidableEq

/-- The output record of `generateAIPrediction` (text `explanation`
omitted, see the module docstring). -/
structure MockPrediction where
  predictedPrice : ℚ
  confidence : ℤ
  changePercent : ℚ
  trend : Trend
  technicalFactors : MockTechFactors
deriving DecidableEq

/-- `generateAIPrediction(historicalData, timeframeDays)`: throws
`Error('Insufficient historical data for prediction')` for fewer than 5
points (modelled as `Except.error`), otherwise returns the record. -/
def generateAIPrediction (m : JSMath) (r : ℚ) (prices : List ℚ)
    (timeframeDays : ℕ) : Except String MockPrediction :=
  if prices.length < 5 then
    Except.error "Insufficient historical data for prediction"
  else
    Except.ok
      { predictedPrice := round2 (mockPredictedPrice m r prices timeframeDays)
        confidence := round (mockFinalConfidence m prices timeframeDays)
        changePercent := round2 (mockChangePercent m r prices timeframeDays)
        trend := mockTrend m r prices timeframeDays
        technicalFactors :=
          { sma5 := round2 (mockSma5 prices)
            sma10 := round2 (mockSma10 prices)
            momentum := round2 (mockMomentum prices)
            volatility := round2 (mockVolatility m prices) } }

/-- Ten prices used to exercise the mock engine's trend threshold. -/
def mockPrices10 : List ℚ := [100, 100, 100, 100, 100, 100, 100, 100, 100, 110]

/-! ## The Market Data Synthesizer
(`real-financial-api.ts`: `getRealtimeMarketData` lines 358–479,
`generateFallbackData` lines 553–634, `getAssetVolatilityProfile`
lines 482–550)

Both generators run `for (let i = 90; i >= 0; i--)`, pushing one OHLCV
point per iteration and threading the unrounded close.  The common loop
shape is `ohlcSim`; each loop body is one step function.  Calendar
operations on `new Date()` are environment functions of `SimEnv`
(`dow` = `getDay`, `dayOfMonth` = `getDate`, `today` the current day
index); `rnd i k` is the value of the `k`-th `Math.random()` call in
iteration `i`. -/

/-- Per-symbol behaviour profile (`getAssetVolatilityProfile`). -/
structure AssetProfile where
  baseVolatility : ℚ
  trendStrength : ℚ
  meanReversion : ℚ
  intradayRange : ℚ
  mondayEffect : ℚ
  monthEndEffect : ℚ
  baseVolume : ℚ
deriving DecidableEq

/-- Calendar and randomness environment of the synthesizer loops. -/
structure SimEnv where
  rnd : ℕ → ℕ → ℚ
  today : ℤ
  dow : ℤ → ℕ
  dayOfMonth : ℤ → ℕ
  timeVar : ℚ
  rnd0 : ℚ

/-- The common countdown loop `for (i = n; i >= 0; i--)`: one point per
iteration, threading the step's unrounded close into the next
iteration. -/
def ohlcSim (step : ℕ → ℚ → RealPricePoint × ℚ) : ℕ → ℚ → List RealPricePoint
  | 0, cur => [(step 0 cur).1]
  | Nat.succ j, cur => (step (j + 1) cur).1 :: ohlcSim step j (step (j + 1) cur).2

/-- Loop body of `getRealtimeMarketData` (lines 408–457): multi-factor
daily return, OHLC with `adjustedHigh`/`adjustedLow` clamping, and
volume patterns. -/
def realtimeStep (m : JSMath) (env : SimEnv) (basePrice : ℚ) (pr : AssetProfile)
    (i : ℕ) (cur : ℚ) : RealPricePoint × ℚ :=
  let date := env.today - (i : ℤ)
  let dayOfWeek := env.dow date
  let trendFactor := m.sin ((i : ℚ) / 30) * pr.trendStrength
  let meanReversionFactor := (basePrice - cur) / basePrice * pr.meanReversion
  let volatilityFactor := (env.rnd i 0 - 0.5) * pr.baseVolatility
  let mondayEffect := if dayOfWeek = 1 then pr.mondayEffect else 0
  let monthEndEffect := if 25 < env.dayOfMonth date then pr.monthEndEffect else 0
  let weekendReduction : ℚ := if dayOfWeek = 0 ∨ dayOfWeek = 6 then 0.3 else 1
  let totalChange :=
    (trendFactor + meanReversionFactor + volatilityFactor + mondayEffect +
      monthEndEffect) * weekendReduction
  let openP := cur
  let volatilityMultiplier := 1 + |totalChange| * 2
  let intradayRange := pr.intradayRange * volatilityMultiplier
  let high := openP * (1 + intradayRange * env.rnd i 1)
  let low := openP * (1 - intradayRange * env.rnd i 2)
  let close := cur * (1 + totalChange)
  let adjustedHigh := max high (max openP close)
  let adjustedLow := min low (min openP close)
  let volumeMultiplier := 1 + |totalChange| * 3
  let dayOfWeekVolume : ℚ := if dayOfWeek = 1 ∨ dayOfWeek = 5 then 1.2 else 1
  let volume :=
    ⌊pr.baseVolume * volumeMultiplier * dayOfWeekVolume * (0.7 + env.rnd i 3 * 0.6)⌋
  ({ date := date, price := round2 close, openPrice := round2 openP,
     high := round2 adjustedHigh, low := round2 adjustedLow, volume := volume },
   close)

/-- The 91-point historical series of `getRealtimeMarketData`. -/
def realtimeHistoricalSeries (m : JSMath) (env : SimEnv) (basePrice : ℚ)
    (pr : AssetProfile) : List RealPricePoint :=
  ohlcSim (realtimeStep m env basePrice pr) 90 basePrice

/-- Volatility tier of `generateFallbackData` (selected by symbol). -/
def fallbackVolatility (sym : String) : ℚ :=
  if sym.endsWith "-USD" then 0.045
  else if sym = "TSLA" ∨ sym = "NVDA" then 0.032
  else if sym = "AAPL" ∨ sym = "MSFT" ∨ sym = "GOOGL" then 0.022
  else 0.025

/-- Base volume tier of `generateFallbackData`. -/
def fallbackBaseVolume (sym : String) : ℚ :=
  if sym.endsWith "-USD" then 50000000
  else if sym = "AAPL" ∨ sym = "TSLA" then 80000000
  else 30000000

/-- Loop body of `generateFallbackData` (lines 580–613).  Note: `high`
and `low` are **not** clamped against `close` here. -/
def fallbackStep (m : JSMath) (env : SimEnv) (sym : String) (basePrice : ℚ)
    (i : ℕ) (cur : ℚ) : RealPricePoint × ℚ :=
  let date := env.today - (i : ℤ)
  let vol := fallbackVolatility sym
  let trend := m.sin ((i : ℚ) / 30) * 0.001
  let meanReversion := (basePrice - cur) * 0.002
  let randomWalk := (env.rnd i 0 - 0.5) * vol
  let weekendEffect : ℚ := if env.dow date = 0 ∨ env.dow date = 6 then 0.5 else 1
  let dailyChange := (trend + meanReversion + randomWalk) * weekendEffect
  let openP := cur
  let high := cur * (1 + |dailyChange| * (0.5 + env.rnd i 1 * 0.5))
  let low := cur * (1 - |dailyChange| * (0.5 + env.rnd i 2 * 0.5))
  let close := cur * (1 + dailyChange)
  let volumeVariation := 0.3 + env.rnd i 3 * 0.7
  let volume := ⌊fallbackBaseVolume sym * volumeVariation * (1 + |dailyChange| * 2)⌋
  ({ date := date, price := round2 close, openPrice := round2 openP,
     high := round2 high, low := round2 low, volume := volume },
   close)

/-- The 91-point historical series of `generateFallbackData`. -/
def fallbackHistoricalSeries (m : JSMath) (env : SimEnv) (sym : String)
    (basePrice : ℚ) : List RealPricePoint :=
  ohlcSim (fallbackStep m env sym basePrice) 90 basePrice

/-- Static company reference data of the synthesizer tables. -/
structure CompanyInfo where
  name : String
  sector : String
  industry : String
  pe : Option ℚ
  eps : Option ℚ
  basePrice : ℚ
  marketCap : Option ℚ

/-- `getAssetVolatilityProfile(symbol)` — seven profiles, defaulting to
the AAPL profile for unknown symbols. -/
def getAssetVolatilityProfile (sym : String) : AssetProfile :=
  if sym = "TSLA" then
    { baseVolatility := 0.052, trendStrength := 0.012, meanReversion := 0.002,
      intradayRange := 0.045, mondayEffect := 0.004, monthEndEffect := 0.003,
      baseVolume := 95000000 }
  else if sym = "GOOGL" then
    { baseVolatility := 0.025, trendStrength := 0.004, meanReversion := 0.002,
      intradayRange := 0.018, mondayEffect := 0.001, monthEndEffect := -0.001,
      baseVolume := 45000000 }
  else if sym = "MSFT" then
    { baseVolatility := 0.020, trendStrength := 0.003, meanReversion := 0.002,
      intradayRange := 0.012, mondayEffect := 0.001, monthEndEffect := 0,
      baseVolume := 55000000 }
  else if sym = "NVDA" then
    { baseVolatility := 0.038, trendStrength := 0.007, meanReversion := 0.003,
      intradayRange := 0.028, mondayEffect := 0.002, monthEndEffect := 0.001,
      baseVolume := 75000000 }
  else if sym = "BTC-USD" then
    { baseVolatility := 0.055, trendStrength := 0.010, meanReversion := 0.001,
      intradayRange := 0.040, mondayEffect := 0.005, monthEndEffect := 0.003,
      baseVolume := 180000000 }
  else if sym = "ETH-USD" then
    { baseVolatility := 0.065, trendStrength := 0.012, meanReversion := 0.001,
      intradayRange := 0.045, mondayEffect := 0.007, monthEndEffect := 0.004,
      baseVolume := 220000000 }
  else
    { baseVolatility := 0.022, trendStrength := 0.003, meanReversion := 0.002,
      intradayRange := 0.015, mondayEffect := 0.001, monthEndEffect := -0.001,
      baseVolume := 85000000 }

/-- Association-table lookup (`companies[symbol]`). -/
def lookupCompany (tbl : List (String × CompanyInfo)) (sym : String) :
    Option CompanyInfo :=
  (tbl.find? (fun e => e.1 == sym)).map (·.2)

/-- The three companies of `getRealtimeMarketData`. -/
def realtimeCompanies : List (String × CompanyInfo) :=
  [("AAPL",
    { name := "Apple Inc.", sector := "Technology",
      industry := "Consumer Electronics", pe := some 28.5, eps := some 6.42,
      basePrice := 195.50, marketCap := some 3000000000000 }),
   ("TSLA",
    { name := "Tesla Inc.", sector := "Consumer Cyclical",
      industry := "Auto Manufacturers", pe := some 179.25, eps := some 1.60,
      basePrice := 297.89, marketCap := some 969060000000 }),
   ("GOOGL",
    { name := "Alphabet Inc.", sector := "Communication Services",
      industry := "Internet Content & Information", pe := some 25.8,
      eps := some 102.74, basePrice := 145.50, marketCap := some 1800000000000 })]

/-- The nine companies of `generateFallbackData`. -/
def fallbackCompanies : List (String × CompanyInfo) :=
  [("AAPL",
    { name := "Apple Inc.", sector := "Technology",
      industry := "Consumer Electronics", pe := some 28.5, eps := some 6.42,
      basePrice := 185.50, marketCap := none }),
   ("TSLA",
    { name := "Tesla Inc.", sector := "Consumer Cyclical",
      industry := "Auto Manufacturers", pe := some 179.25, eps := some 1.60,
      basePrice := 297.89, marketCap := none }),
   ("GOOGL",
    { name := "Alphabet Inc.", sector := "Communication Services",
      industry := "Internet Content & Information", pe := some 25.8,
      eps := some 102.74, basePrice := 140.50, marketCap := none }),
   ("MSFT",
    { name := "Microsoft Corporation", sector := "Technology",
      industry := "Software—Infrastructure", pe := some 32.1, eps := some 12.93,
      basePrice := 415.30, marketCap := none }),
   ("NVDA",
    { name := "NVIDIA Corporation", sector := "Technology",
      industry := "Semiconductors", pe := some 75.4, eps := some 11.61,
      basePrice := 875.45, marketCap := none }),
   ("AMZN",
    { name := "Amazon.com Inc.", sector := "Consumer Cyclical",
      industry := "Internet Retail", pe := some 45.2, eps := some 3.65,
      basePrice := 155.75, marketCap := none }),
   ("META",
    { name := "Meta Platforms Inc.", sector := "Communication Services",
      industry := "Internet Content & Information", pe := some 24.8,
      eps := some 16.87, basePrice := 515.20, marketCap := none }),
   ("BTC-USD",
    { name := "Bitcoin", sector := "Cryptocurrency",
      industry := "Digital Currency", pe := none, eps := none,
      basePrice := 43250.00, marketCap := none }),
   ("ETH-USD",
    { name := "Ethereum", sector := "Cryptocurrency",
      industry := "Digital Currency", pe := none, eps := none,
      basePrice := 2480.60, marketCap := none })]

/-- Zero point, used only as an out-of-range default. -/
def dummyPricePoint : RealPricePoint :=
  { date := 0, price := 0, openPrice := 0, high := 0, low := 0, volume := 0 }

/-- The asset record returned by the synthesizer wrappers
(`RealAssetData`). -/
structure RealAssetData where
  symbol : String
  name : String
  currentPrice : ℚ
  historicalData : List RealPricePoint
  marketCap : Option ℚ
  volume : ℚ
  change24h : ℚ
  changePercent : ℚ
  sector : Option String
  industry : Option String
  pe : Option ℚ
  eps : Option ℚ

/-- `getRealtimeMarketData(symbol)`: `null` for symbols outside its
3-entry table, otherwise the asset record around the simulated series.
`realTimePrice` uses the time-of-day sinusoid (environment value
`timeVar`) and a pre-loop random draw `rnd0`; `x?.price || y` and
`x?.volume || y` are the JS falsy-guards. -/
def getRealtimeMarketData (m : JSMath) (env : SimEnv) (sym : String) :
    Option RealAssetData :=
  match lookupCompany realtimeCompanies sym with
  | none => none
  | some c =>
    let pr := getAssetVolatilityProfile sym
    let series := realtimeHistoricalSeries m env c.basePrice pr
    let finalPrice := round2 (c.basePrice * (1 + env.timeVar + (env.rnd0 - 0.5) * 0.01))
    let previousClose :=
      match series.get? (series.length - 2) with
      | none => finalPrice
      | some p => if p.price = 0 then finalPrice else p.price
    let change24h := finalPrice - previousClose
    some
      { symbol := sym, name := c.name, currentPrice := finalPrice,
        historicalData := series, marketCap := c.marketCap,
        volume :=
          (match series.get? (series.length - 1) with
           | none => pr.baseVolume
           | some p => if p.volume = 0 then pr.baseVolume else (p.volume : ℚ)),
        change24h := round2 change24h,
        changePercent := round2 (change24h / previousClose * 100),
        sector := some c.sector, industry := some c.industry,
        pe := c.pe, eps := c.eps }

/-- `generateFallbackData(symbol)`: `null` outside its 9-entry table,
otherwise the asset record around the fallback series. -/
def generateFallbackData (m : JSMath) (env : SimEnv) (sym : String) :
    Option RealAssetData :=
  match lookupCompany fallbackCompanies sym with
  | none => none
  | some c =>
    let series := fallbackHistoricalSeries m env sym c.basePrice
    let lastPrice := (series.getLastD dummyPricePoint).price
    let previousPrice :=
      match series.get? (series.length - 2) with
      | none => 0
      | some p => p.price
    let change24h := lastPrice - previousPrice
    some
      { symbol := sym, name := c.name, currentPrice := lastPrice,
        historicalData := series,
        marketCap :=
          (match c.pe with
           | none => none
           | some pe =>
             if pe = 0 then none
             else some (lastPrice * (c.eps.getD 0) * 1000000000)),
        volume := ((series.getLastD dummyPricePoint).volume : ℚ),
        change24h := round2 change24h,
        changePercent := round2 (change24h / previousPrice * 100),
        sector := some c.sector, industry := some c.industry,
        pe := c.pe, eps := c.eps }

/-- Deterministic environment used for closed evaluations: every random
draw is `0`, every day is a Wednesday on day-of-month 10. -/
def simEnv0 : SimEnv :=
  { rnd := fun _ _ => 0, today := 0, dow := fun _ => 2,
    dayOfMonth := fun _ => 10, timeVar := 0, rnd0 := 0 }

/-! ## The remote-analysis fallback boundary (`ai-analysis.ts`)

`getAIMarketAnalysis` / `getAIPricePredictions` call the remote edge
function inside `try` and answer with a locally built record from
`catch`.  The observable outcome of the remote call is a
`RemoteOutcome`: the invocation `threw`, or it produced a
`{data, error}` pair — a non-null `error` is re-thrown inside the `try`,
and a null/field-less `data` makes the `data.analysis` access throw
inside the `try` as well, so every shape except
`result none (some payload)` lands in the `catch` branch.  The input
parameters that only feed the remote request body or the omitted prose
fields (`symbol`, `priceHistory`, `marketData` / `marketContext`) are
not modelled; the records keep every numeric/enumerated field. -/

/-- Observable outcome of a `supabase.functions.invoke` call. -/
inductive RemoteOutcome (α : Type) where
  | threw (msg : String)
  | result (error : Option String) (data : Option α)
deriving DecidableEq

/-- `true` on every outcome that lands in the `catch` branch. -/
def RemoteOutcome.isFailure {α : Type} : RemoteOutcome α → Bool
  | RemoteOutcome.result none (some _) => false
  | _ => true

/-- `'Buy' | 'Hold' | 'Sell'`. -/
inductive Recommendation where
  | buy
  | hold
  | sell
deriving DecidableEq

/-- The `AIAnalysis` record (numeric/enumerated fields; the
`supportResistance` string is modelled by its two formatted numbers). -/
structure AIAnalysisM where
  supportLevel : ℚ
  resistanceLevel : ℚ
  recommendation : Recommendation
  confidenceLevel : ℚ
deriving DecidableEq

/-- The analysis built by the `catch` branch of `getAIMarketAnalysis`:
support/resistance at `±5%` of the current price (2-decimal formatted),
recommendation `Hold`, confidence 7. -/
def fallbackAnalysis (currentPrice : ℚ) : AIAnalysisM :=
  { supportLevel := round2 (currentPrice * 0.95)
    resistanceLevel := round2 (currentPrice * 1.05)
    recommendation := Recommendation.hold
    confidenceLevel := 7 }

/-- `getAIMarketAnalysis`: the remote analysis when the call fully
succeeds, the local fallback otherwise. -/
def getAIMarketAnalysis (currentPrice : ℚ) (remote : RemoteOutcome AIAnalysisM) :
    AIAnalysisM :=
  match remote with
  | RemoteOutcome.result none (some a) => a
  | _ => fallbackAnalysis currentPrice

/-- One short-term entry of the `AIPrediction` record (`date` as a
day offset from now). -/
structure AIPredShortEntry where
  date : ℕ
  predictedPrice : ℚ
  confidence : ℚ
  rangeLow : ℚ
  rangeHigh : ℚ
deriving DecidableEq

/-- One medium-term entry of the `AIPrediction` record. -/
structure AIPredMediumEntry where
  week : ℕ
  predictedPrice : ℚ
  confidence : ℚ
deriving DecidableEq

/-- The `AIPrediction` record (prose indicator strings omitted). -/
structure AIPredictionM where
  shortTerm : List AIPredShortEntry
  mediumTerm : List AIPredMediumEntry
deriving DecidableEq

/-- The predictions built by the `catch` branch of
`getAIPricePredictions`: 7 daily and 4 weekly entries around
`historicalData[length-1]?.close || 100`; `rnd k` is the `k`-th
`Math.random()` draw (short-term entries first). -/
def fallbackPredictions (rnd : ℕ → ℚ) (closes : List ℚ) : AIPredictionM :=
  let basePrice :=
    match closes.getLast? with
    | none => 100
    | some c => if c = 0 then 100 else c
  { shortTerm :=
      (List.range 7).map fun i =>
        { date := i + 1
          predictedPrice := basePrice * (1 + (rnd i - 0.5) * 0.03)
          confidence := 75
          rangeLow := basePrice * 0.97
          rangeHigh := basePrice * 1.03 }
    mediumTerm :=
      (List.range 4).map fun i =>
        { week := i + 1
          predictedPrice := basePrice * (1 + (rnd (7 + i) - 0.5) * 0.08)
          confidence := 70 } }

/-- `getAIPricePredictions`: the remote predictions when the call fully
succeeds, the local fallback otherwise. -/
def getAIPricePredictions (rnd : ℕ → ℚ) (closes : List ℚ)
    (remote : RemoteOutcome AIPredictionM) : AIPredictionM :=
  match remote with
  | RemoteOutcome.result none (some p) => p
  | _ => fallbackPredictions rnd closes

/-! ## Definitions following the spec's wording, for the refinement
comparisons of the Bollinger, volatility and confidence claims -/

/-- Following the spec's wording (§4.2): `middle = SMA(period)`,
`upper/lower = middle ± 2 × population standard deviation of the
trailing `period` prices`. -/
def bollingerBandsSpec (m : JSMath) (prices : List ℚ) (period : ℕ) : Bands :=
  let mid := calculateSMA prices period
  let sd := m.sqrt (popVariance (lastN period prices))
  { upper := mid + sd * 2, middle := mid, lower := mid - sd * 2 }

/-- Following the spec's wording (§4.2): standard deviation of the log
returns `× √252 × 100`. -/
def annualizedVolatilitySpec (m : JSMath) (prices : List ℚ) : ℚ :=
  m.sqrt (popVariance (logReturns m prices)) * m.sqrt 252 * 100

/-! ## Concrete inputs for closed evaluations -/

/-- A 4-point series (below the 5-point minimum of the spec). -/
def fourPoints : List RealPricePoint :=
  List.replicate 4
    { date := 0, price := 100, openPrice := 100, high := 100, low := 100,
      volume := 1000 }

/-- Five flat prices, the smallest series the mock engine accepts. -/
def mockPrices5 : List ℚ := [100, 100, 100, 100, 100]

/-- The PricePoint OHLC invariant
`low ≤ min(open, close) ∧ high ≥ max(open, close)`, as a Boolean. -/
def pointInvB (p : RealPricePoint) : Bool :=
  decide (p.low ≤ min p.openPrice p.price) &&
    decide (max p.openPrice p.price ≤ p.high)

/-- Strictly ascending dates, as a Boolean. -/
def datesAscB : List RealPricePoint → Bool
  | [] => true
  | a :: t =>
    (match t.head? with
     | none => true
     | some b => decide (a.date < b.date)) && datesAscB t

/-! ## Helper lemmas -/

theorem round_rat_mono {a b : ℚ} (h : a ≤ b) : round a ≤ round b := by
  rw [round_eq, round_eq]
  exact Int.floor_le_floor (by linarith)

theorem round2_mono {a b : ℚ} (h : a ≤ b) : round2 a ≤ round2 b := by
  unfold round2
  have h2 : round (a * 100) ≤ round (b * 100) := round_rat_mono (by linarith)
  have h3 : ((round (a * 100) : ℤ) : ℚ) ≤ ((round (b * 100) : ℤ) : ℚ) := by
    exact_mod_cast h2
  linarith

theorem rsiGains_nonneg (prices : List ℚ) : ∀ x ∈ rsiGains prices, 0 ≤ x := by
  intro x hx
  simp only [rsiGains, List.mem_map] at hx
  obtain ⟨c, _, rfl⟩ := hx
  split_ifs with h
  · linarith
  · exact le_refl 0

theorem rsiLosses_nonneg (prices : List ℚ) : ∀ x ∈ rsiLosses prices, 0 ≤ x := by
  intro x hx
  simp only [rsiLosses, List.mem_map] at hx
  obtain ⟨c, _, rfl⟩ := hx
  split_ifs with h
  · linarith
  · exact le_refl 0

theorem foldl_wilder_nonneg (period : ℕ) (hp : 1 ≤ period) :
    ∀ l : List ℚ, (∀ x ∈ l, 0 ≤ x) → ∀ init : ℚ, 0 ≤ init →
      0 ≤ l.foldl (fun avg x => (avg * ((period : ℚ) - 1) + x) / (period : ℚ)) init := by
  intro l
  induction l with
  | nil => intro _ init hi; simpa using hi
  | cons a t ih =>
    intro hl init hi
    simp only [List.foldl_cons]
    apply ih (fun x hx => hl x (List.mem_cons_of_mem a hx))
    apply div_nonneg
    · have hper : (1 : ℚ) ≤ (period : ℚ) := by exact_mod_cast hp
      have ha : 0 ≤ a := hl a (List.mem_cons_self a t)
      nlinarith
    · positivity

theorem smoothedAvgGain_nonneg (prices : List ℚ) (period : ℕ) (hp : 1 ≤ period) :
    0 ≤ smoothedAvgGain prices period := by
  unfold smoothedAvgGain wilderSmooth
  apply foldl_wilder_nonneg period hp
  · intro x hx
    exact rsiGains_nonneg prices x (List.mem_of_mem_drop hx)
  · apply div_nonneg _ (by positivity)
    exact List.sum_nonneg fun x hx => rsiGains_nonneg prices x (List.mem_of_mem_take hx)

theorem smoothedAvgLoss_nonneg (prices : List ℚ) (period : ℕ) (hp : 1 ≤ period) :
    0 ≤ smoothedAvgLoss prices period := by
  unfold smoothedAvgLoss wilderSmooth
  apply foldl_wilder_nonneg period hp
  · intro x hx
    exact rsiLosses_nonneg prices x (List.mem_of_mem_drop hx)
  · apply div_nonneg _ (by positivity)
    exact List.sum_nonneg fun x hx => rsiLosses_nonneg prices x (List.mem_of_mem_take hx)

theorem popVariance_nonneg (l : List ℚ) : 0 ≤ popVariance l := by
  unfold popVariance
  apply div_nonneg _ (by positivity)
  apply List.sum_nonneg
  intro x hx
  simp only [List.mem_map] at hx
  obtain ⟨y, _, rfl⟩ := hx
  positivity

theorem calculateVolatility_nonneg (m : JSMath)
    (hs : ∀ x, 0 ≤ x → 0 ≤ m.sqrt x) (prices : List ℚ) :
    0 ≤ calculateVolatility m prices := by
  unfold calculateVolatility
  split
  · exact le_refl 0
  · have h1 := hs _ (popVariance_nonneg (logReturns m prices))
    have h2 := hs 252 (by norm_num)
    unfold ssStdDev
    have : (0 : ℚ) ≤ 100 := by norm_num
    exact mul_nonneg (mul_nonneg h1 h2) this

theorem advRsiFactor_pos (data : List RealPricePoint) : 0 < advRsiFactor data := by
  unfold advRsiFactor
  split_ifs <;> norm_num

theorem advMacdFactor_pos (data : List RealPricePoint) : 0 < advMacdFactor data := by
  unfold advMacdFactor
  split_ifs <;> norm_num

theorem advMaFactor_pos (data : List RealPricePoint) : 0 < advMaFactor data := by
  unfold advMaFactor
  split_ifs <;> norm_num

theorem advBbFactor_pos (m : JSMath) (data : List RealPricePoint) :
    0 < advBbFactor m data := by
  unfold advBbFactor
  dsimp only
  split_ifs <;> norm_num

theorem advBaseMultiplier_pos (m : JSMath) (data : List RealPricePoint) :
    0 < advBaseMultiplier m data :=
  mul_pos (mul_pos (mul_pos (advRsiFactor_pos data) (advMacdFactor_pos data))
    (advMaFactor_pos data)) (advBbFactor_pos m data)

theorem ratSqrt_nonneg (q : ℚ) : 0 ≤ ratSqrt q := by
  unfold ratSqrt
  positivity

theorem stubMath_sqrt_nonneg : ∀ x : ℚ, 0 ≤ x → 0 ≤ stubMath.sqrt x :=
  fun x _ => ratSqrt_nonneg x

theorem lastN_length_of_le {α : Type} {n : ℕ} {l : List α} (h : n ≤ l.length) :
    (lastN n l).length = n := by
  simp [lastN, Nat.sub_sub_self h]

theorem ohlcSim_length (step : ℕ → ℚ → RealPricePoint × ℚ) :
    ∀ (i : ℕ) (cur : ℚ), (ohlcSim step i cur).length = i + 1 := by
  intro i
  induction i with
  | zero => intro cur; rfl
  | succ j ih => intro cur; simp [ohlcSim, ih]

theorem ohlcSim_head (step : ℕ → ℚ → RealPricePoint × ℚ) (i : ℕ) (cur : ℚ) :
    (ohlcSim step i cur).head? = some (step i cur).1 := by
  cases i <;> rfl

theorem ohlcSim_dates (step : ℕ → ℚ → RealPricePoint × ℚ) (today : ℤ)
    (hd : ∀ i cur, ((step i cur).1).date = today - i) :
    ∀ (i : ℕ) (cur : ℚ), datesAscB (ohlcSim step i cur) = true := by
  intro i
  induction i with
  | zero => intro cur; rfl
  | succ j ih =>
    intro cur
    show datesAscB ((step (j + 1) cur).1 :: ohlcSim step j (step (j + 1) cur).2) = true
    unfold datesAscB
    rw [ohlcSim_head, ih]
    simp only [Bool.and_true]
    rw [hd, hd]
    simp only [decide_eq_true_eq]
    push_cast
    linarith

theorem ohlcSim_all (step : ℕ → ℚ → RealPricePoint × ℚ)
    (hstep : ∀ i cur, pointInvB (step i cur).1 = true) :
    ∀ (i : ℕ) (cur : ℚ), (ohlcSim step i cur).all pointInvB = true := by
  intro i
  induction i with
  | zero => intro cur; simp [ohlcSim, hstep]
  | succ j ih => intro cur; simp [ohlcSim, hstep, ih]

theorem realtimeStep_date (m : JSMath) (env : SimEnv) (b : ℚ) (pr : AssetProfile)
    (i : ℕ) (cur : ℚ) : ((realtimeStep m env b pr i cur).1).date = env.today - i :=
  rfl

theorem fallbackStep_date (m : JSMath) (env : SimEnv) (sym : String) (b : ℚ)
    (i : ℕ) (cur : ℚ) : ((fallbackStep m env sym b i cur).1).date = env.today - i :=
  rfl

theorem realtimeStep_inv (m : JSMath) (env : SimEnv) (b : ℚ) (pr : AssetProfile)
    (i : ℕ) (cur : ℚ) : pointInvB (realtimeStep m env b pr i cur).1 = true := by
  unfold pointInvB realtimeStep
  simp only [Bool.and_eq_true, decide_eq_true_eq]
  constructor
  · apply le_min
    · exact round2_mono (le_trans (min_le_right _ _) (min_le_left _ _))
    · exact round2_mono (le_trans (min_le_right _ _) (min_le_right _ _))
  · apply max_le
    · exact round2_mono (le_trans (le_max_left _ _) (le_max_right _ _))
    · exact round2_mono (le_trans (le_max_right _ _) (le_max_right _ _))


/-! ## Claims -/

/-- C1 counterexample: a 4-point series (below the declared 5-point
minimum) fed to the advanced engine does **not** raise the typed
insufficient-data error — `RealFinancialAPI.generatePrediction`
(`generateAdvancedPrediction`) has no length guard and resolves with a
prediction record. -/
theorem c1_short_series_no_error :
    fourPoints.length < 5 ∧
    (realGeneratePrediction "TEST" stubMath 0 fourPoints 3).isOk = true :=
  ⟨by decide, rfl⟩

/-- C1 (amended): the mock engine `generateAIPrediction`
(`financial-api.ts`) throws `Error('Insufficient historical data for
prediction')` exactly when the series has fewer than 5 points, and
succeeds otherwise; the advanced engine `generateAdvancedPrediction`
(`real-financial-api.ts`) performs no such check and never raises this
error, for series of any length. -/
theorem c1_insufficient_data_error :
    (∀ (m : JSMath) (r : ℚ) (prices : List ℚ) (days : ℕ),
        prices.length < 5 →
        generateAIPrediction m r prices days =
          Except.error "Insufficient historical data for prediction") ∧
    (∀ (m : JSMath) (r : ℚ) (prices : List ℚ) (days : ℕ),
        5 ≤ prices.length →
        (generateAIPrediction m r prices days).isOk = true) ∧
    (∀ (sym : String) (m : JSMath) (r : ℚ) (data : List RealPricePoint)
        (days : ℕ), (realGeneratePrediction sym m r data days).isOk = true) := by
  refine ⟨?_, ?_, ?_⟩
  · intro m r prices days h
    unfold generateAIPrediction
    rw [if_pos h]
  · intro m r prices days h
    unfold generateAIPrediction
    rw [if_neg (by omega)]
    rfl
  · intro sym m r data days
    rfl

/-- C1 witness: the split behaviour at concrete 3-, 5- and 4-point
series. -/
theorem c1_insufficient_data_error_witness :
    generateAIPrediction stubMath 0 [1, 2, 3] 1 =
      Except.error "Insufficient historical data for prediction" ∧
    (generateAIPrediction stubMath 0 mockPrices5 1).isOk = true ∧
    (realGeneratePrediction "AAPL" stubMath 0 fourPoints 1).isOk = true :=
  ⟨c1_insufficient_data_error.1 stubMath 0 [1, 2, 3] 1 (by decide),
   c1_insufficient_data_error.2.1 stubMath 0 mockPrices5 1 (by decide),
   c1_insufficient_data_error.2.2 "AAPL" stubMath 0 fourPoints 1⟩

/-- C2 counterexample: on the flat 30-point series at price 100 with
horizon 3 the engine's RSI output is not 50 and its trend is not
neutral (the zero-average-loss path yields `RS = 0`, `RSI = 0`, which
triggers the oversold `×1.02` adjustment and a `≈1.49%` predicted
change). -/
theorem c2_flat_series_counterexample :
    (generateAdvancedPrediction stubMath 0 flat30 3).technicalFactors.rsi ≠ 50 ∧
    (generateAdvancedPrediction stubMath 0 flat30 3).trend ≠ Trend.neutral := by
  refine ⟨?_, ?_⟩ <;> with_unfolding_all decide

/-- C2 (amended): on a 30-point flat-100 series (constant volume) with
horizon 3 days the engine yields RSI = 0 (not 50), annualized
volatility = 0, Bollinger bands (100, 100, 100), trend = bullish (not
neutral), and confidence 86, within [55, 95]. -/
theorem c2_flat_series_end_to_end :
    (generateAdvancedPrediction stubMath 0 flat30 3).technicalFactors.rsi = 0 ∧
    (generateAdvancedPrediction stubMath 0 flat30 3).technicalFactors.volatility = 0 ∧
    (generateAdvancedPrediction stubMath 0 flat30 3).technicalFactors.bollingerBands =
      { upper := 100, middle := 100, lower := 100 } ∧
    (generateAdvancedPrediction stubMath 0 flat30 3).trend = Trend.bullish ∧
    (generateAdvancedPrediction stubMath 0 flat30 3).confidence = 86 ∧
    55 ≤ (generateAdvancedPrediction stubMath 0 flat30 3).confidence ∧
    (generateAdvancedPrediction stubMath 0 flat30 3).confidence ≤ 95 := by
  refine ⟨?_, ?_, ?_, ?_, ?_, ?_, ?_⟩ <;> with_unfolding_all decide

/-- C3 counterexample: `generateFallbackData` does not clamp `high`/`low`
against `close`, so a generated point can violate
`low ≤ min(open, close)`: the first point of the AAPL fallback series
under the all-zero random environment has `open = 185.5`,
`close = 183.46`, but `low = 184.48`. -/
theorem c3_fallback_unclamped_counterexample :
    ∃ p ∈ fallbackHistoricalSeries stubMath simEnv0 "AAPL" (371/2),
      ¬(p.low ≤ min p.openPrice p.price) := by
  refine ⟨(fallbackStep stubMath simEnv0 "AAPL" (371/2) 90 (371/2)).1, ?_, ?_⟩
  · have h : fallbackHistoricalSeries stubMath simEnv0 "AAPL" (371/2) =
        (fallbackStep stubMath simEnv0 "AAPL" (371/2) 90 (371/2)).1 ::
          ohlcSim (fallbackStep stubMath simEnv0 "AAPL" (371/2)) 89
            (fallbackStep stubMath simEnv0 "AAPL" (371/2) 90 (371/2)).2 := rfl
    rw [h]
    exact List.mem_cons_self _ _
  · with_unfolding_all decide

/-- C3 (amended): both synthesizer loops run a fixed 90-day horizon and
return exactly 91 (= 90 + 1) points with strictly ascending dates, for
every symbol, base price, profile and random environment;
`getRealtimeMarketData`'s points always satisfy
`low ≤ min(open, close) ∧ high ≥ max(open, close)` (it clamps via
`adjustedHigh`/`adjustedLow`), while `generateFallbackData`'s points
need not (no clamping — see the counterexample). -/
theorem c3_synthesizer_invariants :
    ∀ (m : JSMath) (env : SimEnv) (basePrice : ℚ) (pr : AssetProfile)
      (sym : String) (bp2 : ℚ),
      (realtimeHistoricalSeries m env basePrice pr).length = 91 ∧
      datesAscB (realtimeHistoricalSeries m env basePrice pr) = true ∧
      (realtimeHistoricalSeries m env basePrice pr).all pointInvB = true ∧
      (fallbackHistoricalSeries m env sym bp2).length = 91 ∧
      datesAscB (fallbackHistoricalSeries m env sym bp2) = true := by
  intro m env basePrice pr sym bp2
  refine ⟨?_, ?_, ?_, ?_, ?_⟩
  · exact ohlcSim_length _ 90 _
  · exact ohlcSim_dates _ env.today (fun i cur => realtimeStep_date m env basePrice pr i cur) 90 _
  · exact ohlcSim_all _ (fun i cur => realtimeStep_inv m env basePrice pr i cur) 90 _
  · exact ohlcSim_length _ 90 _
  · exact ohlcSim_dates _ env.today (fun i cur => fallbackStep_date m env sym bp2 i cur) 90 _

/-- Range of the RSI formula `100 - 100/(1 + g/d)` for non-negative
numerator and positive divisor. -/
theorem rsi_formula_range {g d : ℚ} (hg : 0 ≤ g) (hd : 0 < d) :
    0 ≤ 100 - 100 / (1 + g / d) ∧ 100 - 100 / (1 + g / d) ≤ 100 := by
  have hrs : 0 ≤ g / d := div_nonneg hg hd.le
  have h1 : (0 : ℚ) < 1 + g / d := by linarith
  have h2 : 100 / (1 + g / d) ≤ 100 := by
    rw [div_le_iff₀ h1]; nlinarith
  have h3 : 0 < 100 / (1 + g / d) := by positivity
  exact ⟨by linarith, by linarith⟩

/-- C4: `calculateRSI` stays within [0, 100] and returns 50 exactly for
series of length ≤ period; when the smoothed average loss is zero the
divisor in `RS = avgGain / avgLoss` is replaced by 1 (the JS
`avgLoss || 1`), never dividing by zero. -/
theorem c4_rsi_range :
    ∀ (prices : List ℚ) (period : ℕ), prices ≠ [] → 1 ≤ period →
      (0 ≤ calculateRSI prices period ∧ calculateRSI prices period ≤ 100) ∧
      (prices.length ≤ period → calculateRSI prices period = 50) ∧
      (period + 1 ≤ prices.length → smoothedAvgLoss prices period = 0 →
        calculateRSI prices period =
          100 - 100 / (1 + smoothedAvgGain prices period / 1)) := by
  intro prices period _ hp
  unfold calculateRSI
  dsimp only
  by_cases h : prices.length < period + 1
  · rw [if_pos h]
    exact ⟨⟨by norm_num, by norm_num⟩, fun _ => rfl,
      fun hlen _ => absurd h (by omega)⟩
  · rw [if_neg h]
    have hg := smoothedAvgGain_nonneg prices period hp
    have hl := smoothedAvgLoss_nonneg prices period hp
    have hd : 0 < (if smoothedAvgLoss prices period = 0 then 1
        else smoothedAvgLoss prices period) := by
      split_ifs with h0
      · norm_num
      · exact lt_of_le_of_ne hl fun e => h0 e.symm
    refine ⟨rsi_formula_range hg hd, fun hle => absurd hle (by omega),
      fun _ hzero => ?_⟩
    rw [if_pos hzero]

/-- C4 witness: the RSI of a 2-point series with the default period. -/
theorem c4_rsi_range_witness :
    (([1, 2] : List ℚ) ≠ [] ∧ (1 : ℕ) ≤ 14) ∧
    ((0 ≤ calculateRSI [1, 2] 14 ∧ calculateRSI [1, 2] 14 ≤ 100) ∧
      (([1, 2] : List ℚ).length ≤ 14 → calculateRSI [1, 2] 14 = 50) ∧
      (14 + 1 ≤ ([1, 2] : List ℚ).length → smoothedAvgLoss [1, 2] 14 = 0 →
        calculateRSI [1, 2] 14 =
          100 - 100 / (1 + smoothedAvgGain [1, 2] 14 / 1))) :=
  ⟨⟨by simp, by norm_num⟩, c4_rsi_range [1, 2] 14 (by simp) (by norm_num)⟩

/-- C5 counterexample: the stored confidence field is the **rounded**
clamp value, not the clamp value itself — on the flat 30-point series
with horizon 3 the clamped value is `6859/80 = 85.7375`, but the stored
field is 86. -/
theorem c5_confidence_rounding_counterexample :
    (generateAdvancedPrediction stubMath 0 flat30 3).confidence = 86 ∧
    min 95 (max 55 (advBaseConfidence flat30 * advTimeDecay 3)) = 6859 / 80 ∧
    ((86 : ℚ) ≠ 6859 / 80) := by
  refine ⟨by with_unfolding_all decide, ?_, by norm_num⟩
  have h1 : advBaseConfidence flat30 = 100 := by with_unfolding_all decide
  rw [h1]
  unfold advTimeDecay
  norm_num [min_def, max_def]

/-- C5 (amended): for every series and horizon, the stored confidence
field equals `Math.round` of
`clamp₅₅₉₅((75 + RSI-extremity·15 + volume-consistency·10) · 0.95^days)`
and therefore always lies within [55, 95]. -/
theorem c5_confidence_bounds :
    ∀ (m : JSMath) (r : ℚ) (data : List RealPricePoint) (days : ℕ),
      55 ≤ (generateAdvancedPrediction m r data days).confidence ∧
      (generateAdvancedPrediction m r data days).confidence ≤ 95 ∧
      (generateAdvancedPrediction m r data days).confidence =
        round (min 95 (max 55 ((75 + advTrendConsistency data * 15 +
          advVolumeConsistency data * 10) * (0.95 : ℚ) ^ days))) := by
  intro m r data days
  have hEq : (generateAdvancedPrediction m r data days).confidence =
      round (advConfidenceRaw data days) := rfl
  have hpow : advConfidenceRaw data days =
      min 95 (max 55 ((75 + advTrendConsistency data * 15 +
        advVolumeConsistency data * 10) * (0.95 : ℚ) ^ days)) := by
    unfold advConfidenceRaw advBaseConfidence advTimeDecay
    rfl
  have hlow : (55 : ℚ) ≤ advConfidenceRaw data days :=
    le_min (by norm_num) (le_max_left _ _)
  have hhigh : advConfidenceRaw data days ≤ 95 := min_le_left _ _
  have h55 : round ((55 : ℚ)) = 55 := by with_unfolding_all decide
  have h95 : round ((95 : ℚ)) = 95 := by with_unfolding_all decide
  refine ⟨?_, ?_, by rw [hEq, hpow]⟩
  · rw [hEq, ← h55]
    exact round_rat_mono hlow
  · rw [hEq, ← h95]
    exact round_rat_mono hhigh

/-- Case analysis of the three-way trend classifier
`if |cp| < t then neutral else if 0 < cp then bullish else bearish`. -/
theorem trend_ite_cases (cp t : ℚ) :
    ((if |cp| < t then Trend.neutral
      else if 0 < cp then Trend.bullish else Trend.bearish) = Trend.neutral ↔
        |cp| < t) ∧
    ((if |cp| < t then Trend.neutral
      else if 0 < cp then Trend.bullish else Trend.bearish) = Trend.bullish →
        t ≤ cp) ∧
    ((if |cp| < t then Trend.neutral
      else if 0 < cp then Trend.bullish else Trend.bearish) = Trend.bearish →
        cp ≤ -t) := by
  split_ifs with h1 h2
  · exact ⟨by simp [h1], fun hc => by simp at hc, fun hc => by simp at hc⟩
  · refine ⟨by simp [h1], fun _ => ?_, fun hc => by simp at hc⟩
    have := le_of_not_lt h1
    rwa [abs_of_pos h2] at this
  · refine ⟨by simp [h1], fun hc => by simp at hc, fun _ => ?_⟩
    have habs := le_of_not_lt h1
    have hcp : cp ≤ 0 := le_of_not_lt h2
    rw [abs_of_nonpos hcp] at habs
    linarith

/-- C6 counterexample: the mock engine classifies with threshold 1, not
0.5 — on a concrete 10-point series with a +0.91% predicted change the
produced prediction has `trend = neutral` while `|changePercent| ≥ 0.5`,
contradicting the claimed iff. -/
theorem c6_mock_threshold_counterexample :
    (generateAIPrediction stubMath (5/42) mockPrices10 14).map (fun p => p.trend) =
      Except.ok Trend.neutral ∧
    (generateAIPrediction stubMath (5/42) mockPrices10 14).map
      (fun p => p.changePercent) = Except.ok (91/100) ∧
    ¬(|(91 : ℚ)/100| < 0.5) := by
  refine ⟨?_, ?_, ?_⟩
  · with_unfolding_all decide
  · with_unfolding_all decide
  · rw [abs_of_nonneg (by norm_num)]
    norm_num

/-- C6 (amended): in the advanced engine the trend is neutral iff the
**pre-rounding** change percent is below 0.5 in absolute value, and the
stored (2-decimal rounded) `changePercent` field is strictly positive
for bullish and strictly negative for bearish predictions; the mock
engine (`generateAIPrediction`) behaves the same way with threshold 1
instead of 0.5. -/
theorem c6_trend_thresholds :
    (∀ (m : JSMath) (r : ℚ) (data : List RealPricePoint) (days : ℕ),
        0 < advCurrentPrice data →
        (generateAdvancedPrediction m r data days).trend = advTrend m r data ∧
        (generateAdvancedPrediction m r data days).changePercent =
          round2 (advChangePercent m r data) ∧
        (advTrend m r data = Trend.neutral ↔ |advChangePercent m r data| < 0.5) ∧
        (advTrend m r data = Trend.bullish → 0 < round2 (advChangePercent m r data)) ∧
        (advTrend m r data = Trend.bearish → round2 (advChangePercent m r data) < 0)) ∧
    (∀ (m : JSMath) (r : ℚ) (prices : List ℚ) (days : ℕ) (p : MockPrediction),
        generateAIPrediction m r prices days = Except.ok p →
        ((p.trend = Trend.neutral ↔ |mockChangePercent m r prices days| < 1) ∧
         (p.trend = Trend.bullish → 0 < p.changePercent) ∧
         (p.trend = Trend.bearish → p.changePercent < 0))) := by
  constructor
  · intro m r data days _
    have H := trend_ite_cases (advChangePercent m r data) (0.5 : ℚ)
    refine ⟨rfl, rfl, ?_, ?_, ?_⟩
    · exact H.1
    · intro ht
      have h1 : (0.5 : ℚ) ≤ advChangePercent m r data := H.2.1 ht
      have h2 := round2_mono h1
      have h3 : round2 (0.5 : ℚ) = 1/2 := by with_unfolding_all decide
      rw [h3] at h2
      linarith
    · intro ht
      have h1 : advChangePercent m r data ≤ -(0.5 : ℚ) := H.2.2 ht
      have h2 := round2_mono h1
      have h3 : round2 (-(0.5 : ℚ)) = -(1/2) := by with_unfolding_all decide
      rw [h3] at h2
      linarith
  · intro m r prices days p h
    unfold generateAIPrediction at h
    by_cases hlen : prices.length < 5
    · rw [if_pos hlen] at h
      exact absurd h (by simp)
    · rw [if_neg hlen] at h
      have hp := Except.ok.inj h
      subst hp
      have H := trend_ite_cases (mockChangePercent m r prices days) (1 : ℚ)
      refine ⟨?_, ?_, ?_⟩
      · exact H.1
      · intro ht
        have h1 : (1 : ℚ) ≤ mockChangePercent m r prices days := H.2.1 ht
        have h2 := round2_mono h1
        have h3 : round2 (1 : ℚ) = 1 := by with_unfolding_all decide
        rw [h3] at h2
        show (0 : ℚ) < round2 (mockChangePercent m r prices days)
        linarith
      · intro ht
        have h1 : mockChangePercent m r prices days ≤ -(1 : ℚ) := H.2.2 ht
        have h2 := round2_mono h1
        have h3 : round2 (-(1 : ℚ)) = -1 := by with_unfolding_all decide
        rw [h3] at h2
        show round2 (mockChangePercent m r prices days) < (0 : ℚ)
        linarith

/-- C6 witness: both engines at concrete inputs (the flat 30-point
series for the advanced path, a flat 5-point series for the mock
path). -/
theorem c6_trend_thresholds_witness :
    ((0 : ℚ) < advCurrentPrice flat30 ∧
      generateAIPrediction stubMath (1/2) mockPrices5 0 =
        Except.ok ⟨105, 55, 5, Trend.bullish, ⟨100, 50, 0, 35⟩⟩) ∧
    ((generateAdvancedPrediction stubMath 0 flat30 3).trend =
        advTrend stubMath 0 flat30 ∧
      (generateAdvancedPrediction stubMath 0 flat30 3).changePercent =
        round2 (advChangePercent stubMath 0 flat30) ∧
      (advTrend stubMath 0 flat30 = Trend.neutral ↔
        |advChangePercent stubMath 0 flat30| < 0.5) ∧
      (advTrend stubMath 0 flat30 = Trend.bullish →
        0 < round2 (advChangePercent stubMath 0 flat30)) ∧
      (advTrend stubMath 0 flat30 = Trend.bearish →
        round2 (advChangePercent stubMath 0 flat30) < 0)) ∧
    (((⟨105, 55, 5, Trend.bullish, ⟨100, 50, 0, 35⟩⟩ : MockPrediction).trend =
          Trend.neutral ↔ |mockChangePercent stubMath (1/2) mockPrices5 0| < 1) ∧
      ((⟨105, 55, 5, Trend.bullish, ⟨100, 50, 0, 35⟩⟩ : MockPrediction).trend =
          Trend.bullish →
        0 < (⟨105, 55, 5, Trend.bullish, ⟨100, 50, 0, 35⟩⟩ : MockPrediction).changePercent) ∧
      ((⟨105, 55, 5, Trend.bullish, ⟨100, 50, 0, 35⟩⟩ : MockPrediction).trend =
          Trend.bearish →
        (⟨105, 55, 5, Trend.bullish, ⟨100, 50, 0, 35⟩⟩ : MockPrediction).changePercent < 0)) :=
  ⟨⟨by with_unfolding_all decide, by with_unfolding_all decide⟩,
   c6_trend_thresholds.1 stubMath 0 flat30 3 (by with_unfolding_all decide),
   c6_trend_thresholds.2 stubMath (1/2) mockPrices5 0 _
     (by with_unfolding_all decide)⟩

/-- C7 counterexample: for a series shorter than the period the
half-width is **not** 2 × the population standard deviation of the
trailing prices — the code divides the squared deviations by `period`
(here 8) instead of the number of prices (2). -/
theorem c7_bollinger_short_series_counterexample :
    calculateBollingerBands stubMath [1, 5] 8 =
      { upper := 5, middle := 3, lower := 1 } ∧
    bollingerBandsSpec stubMath [1, 5] 8 =
      { upper := 7, middle := 3, lower := -1 } ∧
    calculateBollingerBands stubMath [1, 5] 8 ≠ bollingerBandsSpec stubMath [1, 5] 8 := by
  refine ⟨?_, ?_, ?_⟩ <;> with_unfolding_all decide

/-- C7 (amended): the bands are always symmetric
(`upper − middle = middle − lower`) and ordered
(`lower ≤ middle ≤ upper`, given that `sqrt` is non-negative on
non-negative inputs); when the series has at least `period` prices the
bands coincide with the spec's formulation (middle = SMA, half-width =
2 × population standard deviation of the trailing `period` prices). -/
theorem c7_bollinger_properties :
    ∀ (m : JSMath) (prices : List ℚ) (period : ℕ),
      (∀ x, 0 ≤ x → 0 ≤ m.sqrt x) → prices ≠ [] → 1 ≤ period →
      ((calculateBollingerBands m prices period).upper -
          (calculateBollingerBands m prices period).middle =
        (calculateBollingerBands m prices period).middle -
          (calculateBollingerBands m prices period).lower) ∧
      ((calculateBollingerBands m prices period).lower ≤
          (calculateBollingerBands m prices period).middle ∧
        (calculateBollingerBands m prices period).middle ≤
          (calculateBollingerBands m prices period).upper) ∧
      (period ≤ prices.length →
        calculateBollingerBands m prices period = bollingerBandsSpec m prices period) := by
  intro m prices period hs _ _
  have hvar : (0 : ℚ) ≤ ((lastN period prices).map
      (fun p => (p - calculateSMA prices period) ^ 2)).sum / (period : ℚ) := by
    apply div_nonneg _ (by positivity)
    apply List.sum_nonneg
    intro x hx
    simp only [List.mem_map] at hx
    obtain ⟨y, _, rfl⟩ := hx
    positivity
  have hsd := hs _ hvar
  refine ⟨?_, ⟨?_, ?_⟩, ?_⟩
  · unfold calculateBollingerBands
    dsimp only
    ring
  · unfold calculateBollingerBands
    dsimp only
    linarith
  · unfold calculateBollingerBands
    dsimp only
    linarith
  · intro hlen
    unfold calculateBollingerBands bollingerBandsSpec
    dsimp only
    have hlength : (lastN period prices).length = period := lastN_length_of_le hlen
    have hmean : listMean (lastN period prices) = calculateSMA prices period := by
      unfold listMean calculateSMA
      rw [hlength, if_neg (by omega)]
    have hvarEq : ((lastN period prices).map
        (fun p => (p - calculateSMA prices period) ^ 2)).sum / (period : ℚ) =
        popVariance (lastN period prices) := by
      unfold popVariance
      rw [hlength, hmean]
    rw [hvarEq]

/-- C7 witness: the bands of a 2-point series with period 2. -/
theorem c7_bollinger_properties_witness :
    (([1, 5] : List ℚ) ≠ [] ∧ (1 : ℕ) ≤ 2) ∧
    (((calculateBollingerBands stubMath [1, 5] 2).upper -
        (calculateBollingerBands stubMath [1, 5] 2).middle =
      (calculateBollingerBands stubMath [1, 5] 2).middle -
        (calculateBollingerBands stubMath [1, 5] 2).lower) ∧
     ((calculateBollingerBands stubMath [1, 5] 2).lower ≤
        (calculateBollingerBands stubMath [1, 5] 2).middle ∧
      (calculateBollingerBands stubMath [1, 5] 2).middle ≤
        (calculateBollingerBands stubMath [1, 5] 2).upper) ∧
     (2 ≤ ([1, 5] : List ℚ).length →
       calculateBollingerBands stubMath [1, 5] 2 = bollingerBandsSpec stubMath [1, 5] 2)) :=
  ⟨⟨by simp, by norm_num⟩,
   c7_bollinger_properties stubMath [1, 5] 2 stubMath_sqrt_nonneg (by simp) (by norm_num)⟩

/-- C8: the annualized volatility is non-negative (for `sqrt`
non-negative on non-negative inputs), returns 0 for series shorter than
2 and for constant positive series, and otherwise equals the standard
deviation of the log returns × √252 × 100 as the spec words it. -/
theorem c8_volatility_properties :
    ∀ m : JSMath, (∀ x, 0 ≤ x → 0 ≤ m.sqrt x) → m.sqrt 0 = 0 → m.log 1 = 0 →
      (∀ prices : List ℚ, 0 ≤ calculateVolatility m prices) ∧
      (∀ prices : List ℚ, prices.length < 2 → calculateVolatility m prices = 0) ∧
      (∀ (c : ℚ) (n : ℕ), 0 < c → calculateVolatility m (List.replicate n c) = 0) ∧
      (∀ prices : List ℚ, 2 ≤ prices.length →
        calculateVolatility m prices = annualizedVolatilitySpec m prices) := by
  intro m hs h0 hlog1
  refine ⟨calculateVolatility_nonneg m hs, ?_, ?_, ?_⟩
  · intro prices h
    unfold calculateVolatility
    rw [if_pos h]
  · intro c n hc
    unfold calculateVolatility
    split_ifs with h
    · rfl
    · have hret : logReturns m (List.replicate n c) = List.replicate (n - 1) (0 : ℚ) := by
        unfold logReturns
        rw [List.tail_replicate, List.zipWith_replicate]
        congr 1
        · omega
        · dsimp only
          rw [div_self hc.ne', hlog1]
      rw [hret]
      unfold ssStdDev
      have hvar0 : popVariance (List.replicate (n - 1) (0 : ℚ)) = 0 := by
        simp [popVariance, listMean]
      rw [hvar0, h0]
      ring
  · intro prices h
    unfold calculateVolatility annualizedVolatilitySpec ssStdDev
    rw [if_neg (by omega)]

/-- C8 witness: concrete series for each clause. -/
theorem c8_volatility_properties_witness :
    (0 : ℚ) < 7 ∧
    0 ≤ calculateVolatility stubMath [2, 1, 3] ∧
    calculateVolatility stubMath [5] = 0 ∧
    calculateVolatility stubMath (List.replicate 4 7) = 0 ∧
    calculateVolatility stubMath [1, 2] = annualizedVolatilitySpec stubMath [1, 2] :=
  have H := c8_volatility_properties stubMath stubMath_sqrt_nonneg
    (by with_unfolding_all decide) (by with_unfolding_all decide)
  ⟨by norm_num, H.1 [2, 1, 3], H.2.1 [5] (by decide), H.2.2.1 7 4 (by norm_num),
   H.2.2.2 [1, 2] (by decide)⟩

/-- C9: every remote outcome that is not a fully successful response —
a thrown invocation, a non-null `error` field, or a null payload — is
absorbed locally: both wrappers return exactly the locally built
fallback record, and (being total functions) propagate no exception. -/
theorem c9_remote_failure_fallback :
    (∀ (price : ℚ) (remote : RemoteOutcome AIAnalysisM),
        remote.isFailure = true →
        getAIMarketAnalysis price remote = fallbackAnalysis price) ∧
    (∀ (rnd : ℕ → ℚ) (closes : List ℚ) (remote : RemoteOutcome AIPredictionM),
        remote.isFailure = true →
        getAIPricePredictions rnd closes remote = fallbackPredictions rnd closes) := by
  constructor
  · intro price remote h
    cases remote with
    | threw msg => rfl
    | result err data =>
      cases err with
      | some e => rfl
      | none =>
        cases data with
        | none => rfl
        | some a => simp [RemoteOutcome.isFailure] at h
  · intro rnd closes remote h
    cases remote with
    | threw msg => rfl
    | result err data =>
      cases err with
      | some e => rfl
      | none =>
        cases data with
        | none => rfl
        | some a => simp [RemoteOutcome.isFailure] at h

/-- C9 witness: a simulated HTTP-500-style thrown invocation is absorbed
by both wrappers. -/
theorem c9_remote_failure_fallback_witness :
    (RemoteOutcome.threw "HTTP 500" : RemoteOutcome AIAnalysisM).isFailure = true ∧
    getAIMarketAnalysis 100 (RemoteOutcome.threw "HTTP 500") = fallbackAnalysis 100 ∧
    getAIPricePredictions (fun _ => 1/2) [50] (RemoteOutcome.threw "HTTP 500") =
      fallbackPredictions (fun _ => 1/2) [50] :=
  ⟨rfl, c9_remote_failure_fallback.1 100 (RemoteOutcome.threw "HTTP 500") rfl,
   c9_remote_failure_fallback.2 (fun _ => 1/2) [50] (RemoteOutcome.threw "HTTP 500") rfl⟩

/-- C10: the volatility adjustment equals
`1 + (volatility/100) · r · 0.1`, is ≥ 1 for every non-negative
volatility and draw `r ∈ [0, 1)`, and therefore never moves the
(pre-rounding) predicted price below `currentPrice × baseMultiplier`:
the injected noise is one-sided. -/
theorem c10_vol_adjustment_one_sided :
    ∀ (m : JSMath) (r : ℚ) (data : List RealPricePoint),
      (∀ x, 0 ≤ x → 0 ≤ m.sqrt x) → 0 ≤ r → r < 1 →
      0 < advCurrentPrice data →
      advVolAdjustment m r data = 1 + advVolatility m data / 100 * r * 0.1 ∧
      1 ≤ advVolAdjustment m r data ∧
      advCurrentPrice data * advBaseMultiplier m data ≤ advPredictedPrice m r data := by
  intro m r data hs hr0 _ hcp
  have hvol : 0 ≤ advVolatility m data := calculateVolatility_nonneg m hs _
  have hterm : 0 ≤ advVolatility m data / 100 * r * 0.1 :=
    mul_nonneg (mul_nonneg (div_nonneg hvol (by norm_num)) hr0) (by norm_num)
  have hadj : 1 ≤ advVolAdjustment m r data := by
    unfold advVolAdjustment
    linarith
  refine ⟨rfl, hadj, ?_⟩
  have hbm : 0 ≤ advCurrentPrice data * advBaseMultiplier m data :=
    mul_nonneg hcp.le (advBaseMultiplier_pos m data).le
  exact le_mul_of_one_le_right hbm hadj

/-- C10 witness: the adjustment on the flat 30-point series with
`r = 1/2`. -/
theorem c10_vol_adjustment_one_sided_witness :
    ((0 : ℚ) ≤ 1/2 ∧ (1 : ℚ)/2 < 1 ∧ 0 < advCurrentPrice flat30) ∧
    (advVolAdjustment stubMath (1/2) flat30 =
        1 + advVolatility stubMath flat30 / 100 * (1/2) * 0.1 ∧
      1 ≤ advVolAdjustment stubMath (1/2) flat30 ∧
      advCurrentPrice flat30 * advBaseMultiplier stubMath flat30 ≤
        advPredictedPrice stubMath (1/2) flat30) :=
  ⟨⟨by norm_num, by norm_num, by with_unfolding_all decide⟩,
   c10_vol_adjustment_one_sided stubMath (1/2) flat30 stubMath_sqrt_nonneg
     (by norm_num) (by norm_num) (by with_unfolding_all decide)⟩
